/-
  Verification of the resilient WebSocket session layer of the repository:
  a shallow embedding of `shared_lib.baseclient.ws_client.WebSocketClient`
  (connect / subscribe_method / unsubscribe_method / _reconnect /
  _connection_handler), of the Solana JSON-RPC adapter's message dispatch
  (`rpc.ws_client.SolanaRPCWSClient._message_handler`), and of the
  topic/room-style subscribe-message builder.

  Python `dict[str, ...]` values are modelled as insertion-ordered
  association lists; the I/O effects of the session (socket opens, socket
  closes, backoff sleeps, outbound JSON sends, Notifier messages) are
  modelled as an explicit event trace; fallible collaborators (the network,
  the adapter's message builders) are modelled as an explicit environment
  that says which calls raise.
-/
import Mathlib

namespace WsClient

/-- JSON values, as produced by `json.loads` / consumed by `send_json`. -/
inductive Json where
  | null : Json
  | bool (b : Bool) : Json
  | num (n : Int) : Json
  | str (s : String) : Json
  | arr (elems : List Json) : Json
  | obj (fields : List (String × Json)) : Json
deriving Repr

/-- A value stored in a subscription-registry entry (`self._active_subscriptions`):
either the registered callback (identified by an opaque id, since the Python
value is a function) or a protocol-specific parameter value. -/
inductive Field where
  | cb (id : Nat) : Field
  | val (j : Json) : Field
deriving Repr

/-- One registry entry: the `dict` stored under a room key, e.g.
`{"callback": cb, "params": [...]}`. Insertion-ordered, keys unique. -/
abbrev SubInfo := List (String × Field)

/-- Python `d[k] = v` on an insertion-ordered dict: replaces in place if the
key exists, appends otherwise. -/
def dictSet {α : Type} (d : List (String × α)) (k : String) (v : α) :
    List (String × α) :=
  match d with
  | [] => [(k, v)]
  | (k', v') :: rest =>
    if k' = k then (k', v) :: rest else (k', v') :: dictSet rest k v

/-- Python `d.pop(k, None)`: removes the binding for `k` if present. -/
def dictPop {α : Type} (d : List (String × α)) (k : String) :
    List (String × α) :=
  match d with
  | [] => []
  | (k', v') :: rest =>
    if k' = k then rest else (k', v') :: dictPop rest k

/-- Python `d.get(k)`. -/
def dictGet {α : Type} (d : List (String × α)) (k : String) : Option α :=
  match d with
  | [] => none
  | (k', v') :: rest => if k' = k then some v' else dictGet rest k

/-- Python `k in d`. -/
def dictHas {α : Type} (d : List (String × α)) (k : String) : Bool :=
  (dictGet d k).isSome

/-- The `kwargs` extracted from a registry entry during reconnection replay:
`{k: v for k, v in sub_info.items() if k != "callback"}`. -/
def kwargsOf (info : SubInfo) : SubInfo :=
  info.filter (fun p => p.1 ≠ "callback")

/-- The callback stored in a registry entry: `sub_info.get("callback")`
when it is a function value. -/
def callbackOf (info : SubInfo) : Option Nat :=
  match dictGet info "callback" with
  | some (Field.cb id) => some id
  | _ => none

/-- Observable side effects of the session layer, in program order. -/
inductive Event where
  | wsConnect : Event
  | wsClose (handle : Nat) : Event
  | sleep (seconds : Nat) : Event
  | sendMsg (msg : Json) : Event
  | notifyReconnected (connectionType : String) (attempt : Nat) : Event
deriving Repr

/-- The mutable state of one `WebSocketClient` session that the claims are
about: `self.ws` (a live-connection handle, `none` when disconnected, with a
fresh id handed out per successful handshake), `self._callbacks`,
`self._active_subscriptions`, and `self._is_reconnecting`. -/
structure ClientState where
  ws : Option Nat
  nextHandle : Nat
  callbacks : List (String × Nat)
  activeSubscriptions : List (String × SubInfo)
  isReconnecting : Bool
deriving Repr

/-- Model of `connect()`: unconditionally attempts `session.ws_connect` (there is no
already-connected guard in the source); on success assigns the new socket to
`self.ws` and returns `True`; every handshake/client error is caught and
turned into `False`, leaving `self.ws` unchanged. `succeed` is the
environment's verdict on the handshake. -/
def connect (succeed : Bool) (st : ClientState) :
    Bool × ClientState × List Event :=
  if succeed then
    (true,
     { st with ws := some st.nextHandle, nextHandle := st.nextHandle + 1 },
     [Event.wsConnect])
  else
    (false, st, [Event.wsConnect])

/-- Reconnection configuration fixed in `WebSocketClient.__init__`:
`self._max_reconnect_attempts = 5`, `self._reconnect_delay_seconds = 5`. -/
structure Config where
  maxReconnectAttempts : Nat
  reconnectDelaySeconds : Nat

/-- The defaults set by `__init__`. -/
def defaultConfig : Config := ⟨5, 5⟩

/-- The adapter extension point `_build_subscribe_message(room, **kwargs)`,
abstract over the concrete protocol. -/
abbrev Builder := String → SubInfo → Json

/-- Which collaborator calls fail, per reconnect attempt and per room:
`connectResult k` is what `connect()` returns on attempt `k`;
`sleepRaises k` says whether the backoff sleep of attempt `k` is interrupted
by an exception (e.g. cancellation); `buildRaises`/`sendRaises` say whether
`_build_subscribe_message` / `_send_json_message` raise for a given room on
a given attempt. -/
structure ReconnectEnv where
  connectResult : Nat → Bool
  sleepRaises : Nat → Bool
  buildRaises : Nat → String → Bool
  sendRaises : Nat → String → Bool

/-- How a call to `_reconnect` ends: a normal `return b`, or an exception
propagating to the caller. -/
inductive ROutcome where
  | ok (b : Bool) : ROutcome
  | exn : ROutcome
deriving Repr, DecidableEq

/-- Result of running (a suffix of) `_reconnect`: the outcome, the state it
leaves behind, and the trace of effects it performed. -/
structure RResult where
  outcome : ROutcome
  state : ClientState
  trace : List Event
deriving Repr

/-- The subscription-restoration loop of `_reconnect` (attempt `attempt`):
for each registry entry in insertion order, build the subscribe message from
the entry's fields minus `"callback"` and send it; an exception from the
builder or the send is caught, logged and the loop moves on to the next
entry. Returns the successful outbound sends. -/
def replayEvents (env : ReconnectEnv) (bs : Builder) (attempt : Nat)
    (subs : List (String × SubInfo)) : List Event :=
  subs.filterMap fun p =>
    if env.buildRaises attempt p.1 || env.sendRaises attempt p.1 then none
    else some (Event.sendMsg (bs p.1 (kwargsOf p.2)))

/-- The backoff delay computed at line
`delay = self._reconnect_delay_seconds * (2 ** (attempt - 2))`. -/
def backoffDelay (cfg : Config) (attempt : Nat) : Nat :=
  cfg.reconnectDelaySeconds * 2 ^ (attempt - 2)

/-- The effect prefix every attempt of the reconnect loop performs before
its `connect()` returns: the backoff sleep (only when `attempt > 1`), the
close of a stale socket handle (only when one is held), and the handshake
attempt itself. -/
def attemptPrefix (cfg : Config) (attempt : Nat) (stale : Option Nat) :
    List Event :=
  (if attempt > 1 then [Event.sleep (backoffDelay cfg attempt)] else []) ++
    (match stale with
     | some h => [Event.wsClose h]
     | none => []) ++ [Event.wsConnect]

/-- The body of the `for attempt in range(1, max+1)` loop of `_reconnect`,
over the list of remaining attempt numbers. Per attempt: backoff sleep when
`attempt > 1` (an exception there escapes the loop — the sleep sits outside
the per-attempt `try`); then close any stale socket, call `connect()`,
`continue` on a `False` result; on success replay every registered
subscription and send exactly one Notifier message citing the attempt
number, returning `True`. Falling off the list returns `False`. -/
def reconnectGo (cfg : Config) (env : ReconnectEnv) (bs : Builder) :
    ClientState → List Nat → RResult
  | st, [] => ⟨ROutcome.ok false, st, []⟩
  | st, attempt :: rest =>
    if attempt > 1 && env.sleepRaises attempt then
      ⟨ROutcome.exn, st, []⟩
    else
      let st1 : ClientState := { st with ws := none }
      let c := connect (env.connectResult attempt) st1
      if c.1 then
        let st2 := c.2.1
        let replay := replayEvents env bs attempt st2.activeSubscriptions
        ⟨ROutcome.ok true, st2,
         attemptPrefix cfg attempt st.ws ++ replay ++
           [Event.notifyReconnected "main" attempt]⟩
      else
        let r := reconnectGo cfg env bs st1 rest
        ⟨r.outcome, r.state, attemptPrefix cfg attempt st.ws ++ r.trace⟩

/-- Model of `_reconnect(connection_type="main")`: the reentrancy guard returns
`False` at once when `self._is_reconnecting` is already set (performing no
effect at all); otherwise the flag is raised, the attempt loop runs for
attempts `1..max`, and the `finally` clause clears the flag on every exit
path — normal return and escaping exception alike. -/
def reconnect (cfg : Config) (env : ReconnectEnv) (bs : Builder)
    (st : ClientState) : RResult :=
  if st.isReconnecting then
    ⟨ROutcome.ok false, st, []⟩
  else
    let r := reconnectGo cfg env bs { st with isReconnecting := true }
      (List.range' 1 cfg.maxReconnectAttempts)
    ⟨r.outcome, { r.state with isReconnecting := false }, r.trace⟩

/-- The successful outbound JSON sends of a trace. -/
def sendsOf (t : List Event) : List Json :=
  t.filterMap fun e =>
    match e with
    | Event.sendMsg j => some j
    | _ => none

/-- The reconnection-success Notifier messages of a trace (the attempt
number each one cites). -/
def reconNotifiesOf (t : List Event) : List Nat :=
  t.filterMap fun e =>
    match e with
    | Event.notifyReconnected _ a => some a
    | _ => none

/-- The completed backoff sleeps of a trace (in seconds). -/
def sleepsOf (t : List Event) : List Nat :=
  t.filterMap fun e =>
    match e with
    | Event.sleep s => some s
    | _ => none

/-- The socket-opening events of a trace. -/
def connectsOf (t : List Event) : List Event :=
  t.filter fun e =>
    match e with
    | Event.wsConnect => true
    | _ => false

/-- Which collaborator calls fail during a single `subscribe_method` /
`unsubscribe_method` call. -/
structure CallEnv where
  connectSucceeds : Bool
  buildRaises : Bool
  sendRaises : Bool

/-- The shared tail of `subscribe_method` once a connection is ensured:
`self._callbacks[method] = callback`, then `try: build; send; return True`
with any exception turned into `return False` — leaving the callback
registered. `pre` is the trace accumulated by the connection step. -/
def subscribeCore (env : CallEnv) (bs : Builder) (method : String) (cb : Nat)
    (kwargs : SubInfo) (st : ClientState) (pre : List Event) :
    Bool × ClientState × List Event :=
  if env.buildRaises then
    (false, { st with callbacks := dictSet st.callbacks method cb }, pre)
  else if st.ws.isNone then
    (false, { st with callbacks := dictSet st.callbacks method cb }, pre)
  else if env.sendRaises then
    (false, { st with callbacks := dictSet st.callbacks method cb }, pre)
  else
    (true, { st with callbacks := dictSet st.callbacks method cb },
     pre ++ [Event.sendMsg (bs method kwargs)])

/-- Model of `subscribe_method(method, callback, **kwargs)`: when `self.ws` is unset
it first calls `connect()` and returns `False` straight away if that fails
(before touching the callback registry); otherwise it registers the
callback and attempts to build and send the subscribe message. -/
def subscribeMethod (env : CallEnv) (bs : Builder) (method : String)
    (cb : Nat) (kwargs : SubInfo) (st : ClientState) :
    Bool × ClientState × List Event :=
  match st.ws with
  | some _ => subscribeCore env bs method cb kwargs st []
  | none =>
    let c := connect env.connectSucceeds st
    if c.1 then subscribeCore env bs method cb kwargs c.2.1 c.2.2
    else (false, c.2.1, c.2.2)

/-- Model of `unsubscribe_method(method, **kwargs)`: pops the callback from
`self._callbacks` first, then attempts to build and send the unsubscribe
message; any exception yields `False` and the removal is not rolled back.
The registry is never consulted for the return value. -/
def unsubscribeMethod (env : CallEnv) (bu : Builder) (method : String)
    (kwargs : SubInfo) (st : ClientState) :
    Bool × ClientState × List Event :=
  if env.buildRaises then
    (false, { st with callbacks := dictPop st.callbacks method }, [])
  else if st.ws.isNone then
    (false, { st with callbacks := dictPop st.callbacks method }, [])
  else if env.sendRaises then
    (false, { st with callbacks := dictPop st.callbacks method }, [])
  else
    (true, { st with callbacks := dictPop st.callbacks method },
     [Event.sendMsg (bu method kwargs)])

/-- How one call of the abstract `_message_handler` on a text frame ends:
callbacks dispatched normally, a `json.JSONDecodeError` from parsing, or
any other exception (e.g. one raised inside a user callback). -/
inductive HandleResult where
  | ok (dispatched : List (String × Json)) : HandleResult
  | parseError : HandleResult
  | raised : HandleResult

/-- One frame of the inbound WebSocket stream as seen by
`_connection_handler`: a text frame, an `ERROR` frame, or a
`CLOSE`/`CLOSING`/`CLOSED` frame. -/
inductive Frame where
  | text (data : String) : Frame
  | errorFrame : Frame
  | closeFrame : Frame

/-- Model of the `async for msg in self.ws` loop of `_connection_handler`: each text
frame is handed to `_message_handler` inside a `try` whose
`except json.JSONDecodeError` and `except Exception` arms log and fall
through to the next frame; `ERROR` and close-type frames `break`. Returns
the dispatched (key, payload) invocations, in order. -/
def connectionHandlerLoop (handle : String → HandleResult) :
    List Frame → List (String × Json)
  | [] => []
  | Frame.text s :: rest =>
    (match handle s with
     | HandleResult.ok evs => evs
     | HandleResult.parseError => []
     | HandleResult.raised => []) ++ connectionHandlerLoop handle rest
  | Frame.errorFrame :: _ => []
  | Frame.closeFrame :: _ => []

/-- Python `str.replace` over character lists, fuel-indexed so the
recursion is structural: scan left to right, replace each non-overlapping
occurrence of `old`, skip past it, and copy every other character. The fuel
only has to dominate the input length. -/
def replaceCharsAux (old new : List Char) : Nat → List Char → List Char
  | _, [] => []
  | 0, l => l
  | fuel + 1, c :: rest =>
    if old.isPrefixOf (c :: rest) then
      new ++ replaceCharsAux old new fuel (rest.drop (old.length - 1))
    else
      c :: replaceCharsAux old new fuel rest

/-- Python `str.replace` over character lists. -/
def replaceChars (old new : List Char) (l : List Char) : List Char :=
  replaceCharsAux old new l.length l

/-- Python `s.replace(old, new)`. -/
def pyReplace (s old new : String) : String :=
  ⟨replaceChars old.data new.data s.data⟩

/-- The topic derivation of the JSON-RPC dispatcher:
`method.replace("Notification", "Subscribe")`. -/
def rpcTopicOf (method : String) : String :=
  pyReplace method "Notification" "Subscribe"

/-- What `SolanaRPCWSClient._message_handler` does with one parsed message. -/
inductive DispatchResult where
  | ackLogged (subscriptionId : Json) (requestId : Json) : DispatchResult
  | callbackInvoked (cb : Nat) (payload : Json) : DispatchResult
  | noCallbackWarned (topic : String) : DispatchResult
  | errorLogged (err : Json) : DispatchResult
  | unhandledLogged : DispatchResult
  | raised : DispatchResult

/-- Model of `SolanaRPCWSClient._message_handler` on a parsed JSON object `fields`
(the `data` dict): a message with both `result` and `id` is an
acknowledgement — logged, no callback; otherwise a message with `method`
and `params` is a notification — the topic is
`method.replace("Notification", "Subscribe")` and the callback stored in
`self._active_subscriptions[topic]["callback"]` receives exactly the
`params` value (a missing callback only logs a warning); otherwise a
message with `error` is logged as an RPC error; anything else is logged as
unhandled. A non-string `method` raises (`.replace` on a non-`str`). -/
def messageHandler (subs : List (String × SubInfo))
    (fields : List (String × Json)) : DispatchResult :=
  if dictHas fields "result" && dictHas fields "id" then
    DispatchResult.ackLogged ((dictGet fields "result").getD Json.null)
      ((dictGet fields "id").getD Json.null)
  else if dictHas fields "method" && dictHas fields "params" then
    match dictGet fields "method" with
    | some (Json.str m) =>
      let params := (dictGet fields "params").getD Json.null
      match dictGet subs (rpcTopicOf m) with
      | some info =>
        match callbackOf info with
        | some c => DispatchResult.callbackInvoked c params
        | none => DispatchResult.noCallbackWarned (rpcTopicOf m)
      | none => DispatchResult.noCallbackWarned (rpcTopicOf m)
    | _ => DispatchResult.raised
  else if dictHas fields "error" then
    DispatchResult.errorLogged ((dictGet fields "error").getD Json.null)
  else
    DispatchResult.unhandledLogged

/-- The key list carried in a topic-style call's kwargs (the optional
`keys` parameter; absent means the empty list, as in the base-class
docstring example `{"method": "subscribeNewToken", "keys": []}`). -/
def keysArgOf (kwargs : SubInfo) : List Json :=
  match dictGet kwargs "keys" with
  | some (Field.val (Json.arr l)) => l
  | _ => []

/-- Modelled from the spec: the topic/room-style adapter's build-subscribe
extension point. `PumpPortalWSClient` does not override the abstract
`_build_subscribe_message` of `WebSocketClient` anywhere under `src/`, so
the body follows the spec sentence "build-subscribe(key, params={keys:[...]})
→ `{"method": key, "keys": [...]}` serialized as the wire message". -/
def pumpportalBuildSubscribeMessage (method : String) (kwargs : SubInfo) :
    Json :=
  Json.obj [("method", Json.str method), ("keys", Json.arr (keysArgOf kwargs))]

/-- Modelled from the spec: the topic/room-style adapter's build-unsubscribe
extension point — "same shape but `key` is the unsubscribe-variant name (by
convention, prefixed, e.g. "un"+subscribe-name)"; the callers in
`pumpportal/ws_client.py` pass `f"un{ROOM}"` as the method argument. -/
def pumpportalBuildUnsubscribeMessage (method : String) (kwargs : SubInfo) :
    Json :=
  Json.obj [("method", Json.str method), ("keys", Json.arr (keysArgOf kwargs))]

/-- The session state of Scenario C: a live socket and two active
topic-style subscriptions recorded in subscribe order. -/
def scenarioCState : ClientState :=
  ⟨some 0, 1,
   [("subscribeNewToken", 1), ("subscribeTokenTrade", 2)],
   [("subscribeNewToken", [("callback", Field.cb 1)]),
    ("subscribeTokenTrade",
     [("callback", Field.cb 2),
      ("keys", Field.val (Json.arr [Json.str "mintA"]))])],
   false⟩

/-- The environment of Scenario C: the handshake fails on attempts 1-3 and
succeeds on attempt 4; nothing else raises. -/
def scenarioCEnv : ReconnectEnv :=
  ⟨fun k => k == 4, fun _ => false, fun _ _ => false, fun _ _ => false⟩

/-- The registry state of Scenario B: one JSON-RPC subscription under the
topic `accountSubscribe` as `subscribe_account` records it. -/
def scenarioBRegistry : List (String × SubInfo) :=
  [("accountSubscribe",
    [("callback", Field.cb 5),
     ("params", Field.val (Json.arr
       [Json.str "Addr1",
        Json.obj [("commitment", Json.str "confirmed")]]))])]

/-- The acknowledgement frame of Scenario B: `{"result": 42, "id": 1}`. -/
def scenarioBAck : List (String × Json) :=
  [("jsonrpc", Json.str "2.0"), ("result", Json.num 42), ("id", Json.num 1)]

/-- The notification payload of Scenario B:
`{"subscription": 42, "result": {"lamports": 5}}`. -/
def scenarioBPayload : Json :=
  Json.obj [("subscription", Json.num 42),
            ("result", Json.obj [("lamports", Json.num 5)])]

/-- The notification frame of Scenario B:
`{"method": "accountNotification", "params": {...}}`. -/
def scenarioBNotif : List (String × Json) :=
  [("method", Json.str "accountNotification"),
   ("params", scenarioBPayload)]

section Lemmas

/-- An environment in which every handshake fails and nothing raises:
exercises the full attempt schedule of the reconnect loop. -/
def allFailEnv : ReconnectEnv :=
  ⟨fun _ => false, fun _ => false, fun _ _ => false, fun _ _ => false⟩

theorem sendsOf_append (t₁ t₂ : List Event) :
    sendsOf (t₁ ++ t₂) = sendsOf t₁ ++ sendsOf t₂ :=
  List.filterMap_append t₁ t₂ _

theorem reconNotifiesOf_append (t₁ t₂ : List Event) :
    reconNotifiesOf (t₁ ++ t₂) = reconNotifiesOf t₁ ++ reconNotifiesOf t₂ :=
  List.filterMap_append t₁ t₂ _

theorem sendsOf_attemptPrefix (cfg : Config) (attempt : Nat)
    (stale : Option Nat) : sendsOf (attemptPrefix cfg attempt stale) = [] := by
  cases stale <;> by_cases h : attempt > 1 <;>
    simp [attemptPrefix, sendsOf, h]

theorem reconNotifiesOf_attemptPrefix (cfg : Config) (attempt : Nat)
    (stale : Option Nat) :
    reconNotifiesOf (attemptPrefix cfg attempt stale) = [] := by
  cases stale <;> by_cases h : attempt > 1 <;>
    simp [attemptPrefix, reconNotifiesOf, h]

theorem sendsOf_replayEvents (env : ReconnectEnv) (bs : Builder)
    (attempt : Nat) (subs : List (String × SubInfo)) :
    sendsOf (replayEvents env bs attempt subs) =
      subs.filterMap (fun p =>
        if env.buildRaises attempt p.1 || env.sendRaises attempt p.1 then none
        else some (bs p.1 (kwargsOf p.2))) := by
  induction subs with
  | nil => rfl
  | cons p rest ih =>
    by_cases h : env.buildRaises attempt p.1 = true ∨
        env.sendRaises attempt p.1 = true <;>
      simp [replayEvents, sendsOf, List.filterMap_cons, h] at ih ⊢ <;> exact ih

theorem reconNotifiesOf_replayEvents (env : ReconnectEnv) (bs : Builder)
    (attempt : Nat) (subs : List (String × SubInfo)) :
    reconNotifiesOf (replayEvents env bs attempt subs) = [] := by
  induction subs with
  | nil => rfl
  | cons p rest ih =>
    by_cases h : env.buildRaises attempt p.1 = true ∨
        env.sendRaises attempt p.1 = true <;>
      simp [replayEvents, reconNotifiesOf, List.filterMap_cons, h] at ih ⊢ <;>
        exact ih

theorem replaceCharsAux_congr (old new : List Char) :
    ∀ (f₁ : Nat) (l : List Char) (f₂ : Nat), l.length ≤ f₁ → l.length ≤ f₂ →
      replaceCharsAux old new f₁ l = replaceCharsAux old new f₂ l := by
  intro f₁
  induction f₁ with
  | zero =>
    intro l f₂ h1 h2
    have hl : l = [] := List.eq_nil_of_length_eq_zero (Nat.le_zero.mp h1)
    subst hl
    cases f₂ <;> rfl
  | succ g ih =>
    intro l f₂ h1 h2
    cases l with
    | nil => cases f₂ <;> rfl
    | cons c rest =>
      cases f₂ with
      | zero => simp at h2
      | succ g₂ =>
        simp only [replaceCharsAux]
        by_cases hp : old.isPrefixOf (c :: rest)
        · rw [if_pos hp, if_pos hp,
            ih (rest.drop (old.length - 1)) g₂
              (le_trans (by simp [List.length_drop])
                (Nat.le_of_succ_le_succ h1))
              (le_trans (by simp [List.length_drop])
                (Nat.le_of_succ_le_succ h2))]
        · rw [if_neg hp, if_neg hp,
            ih rest g₂ (Nat.le_of_succ_le_succ h1)
              (Nat.le_of_succ_le_succ h2)]

theorem replaceChars_nil (old new : List Char) :
    replaceChars old new [] = [] := rfl

theorem replaceChars_cons (old new : List Char) (c : Char)
    (rest : List Char) :
    replaceChars old new (c :: rest) =
      if old.isPrefixOf (c :: rest) then
        new ++ replaceChars old new (rest.drop (old.length - 1))
      else c :: replaceChars old new rest := by
  unfold replaceChars
  simp only [List.length_cons, replaceCharsAux]
  by_cases hp : old.isPrefixOf (c :: rest)
  · rw [if_pos hp, if_pos hp,
      replaceCharsAux_congr old new rest.length (rest.drop (old.length - 1))
        (rest.drop (old.length - 1)).length
        (by simp [List.length_drop]) (le_refl _)]
  · rw [if_neg hp, if_neg hp]

theorem replaceChars_self (old new : List Char) (hold : old ≠ []) :
    replaceChars old new old = new := by
  cases old with
  | nil => exact absurd rfl hold
  | cons c rest =>
    rw [replaceChars_cons]
    have hpre : (c :: rest).isPrefixOf (c :: rest) = true := by
      simp [List.isPrefixOf_iff_prefix]
    simp only [hpre, if_true, List.length_cons, Nat.add_sub_cancel]
    rw [List.drop_length rest, replaceChars_nil, List.append_nil]

theorem replaceChars_append_right (old new : List Char) (hold : old ≠ [])
    (p : List Char)
    (h : ∀ i, i < p.length → ¬ old.isPrefixOf ((p ++ old).drop i)) :
    replaceChars old new (p ++ old) = p ++ new := by
  induction p with
  | nil => simpa using replaceChars_self old new hold
  | cons c p' ih =>
    have h0 : old.isPrefixOf (c :: (p' ++ old)) = false := by
      have := h 0 (by simp)
      simp only [List.drop_zero, List.cons_append] at this
      exact Bool.not_eq_true _ ▸ eq_false_of_ne_true this
    have hstep : ∀ i, i < p'.length → ¬ old.isPrefixOf ((p' ++ old).drop i) := by
      intro i hi
      have := h (i + 1) (by simpa using Nat.succ_lt_succ hi)
      simpa using this
    rw [List.cons_append, replaceChars_cons, h0]
    simp only [Bool.false_eq_true, if_false]
    rw [ih hstep, List.cons_append]

theorem rpcTopicOf_strip_suffix (p : String)
    (h : ∀ i, i < p.data.length →
      ¬ ("Notification" : String).data.isPrefixOf
          ((p.data ++ ("Notification" : String).data).drop i)) :
    rpcTopicOf (p ++ "Notification") = p ++ "Subscribe" := by
  unfold rpcTopicOf pyReplace
  apply String.ext
  rw [String.data_append p "Subscribe"]
  have : (p ++ "Notification").data =
      p.data ++ ("Notification" : String).data :=
    String.data_append p "Notification"
  rw [this]
  exact replaceChars_append_right _ _ (by decide) p.data h

theorem reconnectGo_cons_continue (cfg : Config) (env : ReconnectEnv)
    (bs : Builder) (k : Nat) (rest : List Nat) (st : ClientState)
    (h1 : env.connectResult k = false) (h2 : env.sleepRaises k = false) :
    reconnectGo cfg env bs st (k :: rest) =
      ⟨(reconnectGo cfg env bs { st with ws := none } rest).outcome,
       (reconnectGo cfg env bs { st with ws := none } rest).state,
       attemptPrefix cfg k st.ws ++
         (reconnectGo cfg env bs { st with ws := none } rest).trace⟩ := by
  simp only [reconnectGo, h2, Bool.and_false, Bool.false_eq_true, if_false,
    connect, h1]

theorem reconnectGo_cons_success (cfg : Config) (env : ReconnectEnv)
    (bs : Builder) (a : Nat) (rest : List Nat) (st : ClientState)
    (h1 : env.connectResult a = true) (h2 : env.sleepRaises a = false) :
    reconnectGo cfg env bs st (a :: rest) =
      ⟨ROutcome.ok true,
       { st with ws := some st.nextHandle, nextHandle := st.nextHandle + 1 },
       attemptPrefix cfg a st.ws ++
         replayEvents env bs a st.activeSubscriptions ++
         [Event.notifyReconnected "main" a]⟩ := by
  simp only [reconnectGo, h2, Bool.and_false, Bool.false_eq_true, if_false,
    connect, h1, if_true]

theorem reconnectGo_first_success (cfg : Config) (env : ReconnectEnv)
    (bs : Builder) (a : Nat) (l₂ : List Nat)
    (hsucc : env.connectResult a = true)
    (hsleepa : env.sleepRaises a = false) :
    ∀ (l₁ : List Nat) (st : ClientState),
      (∀ k ∈ l₁, env.connectResult k = false) →
      (∀ k ∈ l₁, env.sleepRaises k = false) →
      (reconnectGo cfg env bs st (l₁ ++ a :: l₂)).outcome = ROutcome.ok true ∧
      sendsOf (reconnectGo cfg env bs st (l₁ ++ a :: l₂)).trace =
        st.activeSubscriptions.filterMap (fun p =>
          if env.buildRaises a p.1 || env.sendRaises a p.1 then none
          else some (bs p.1 (kwargsOf p.2))) ∧
      reconNotifiesOf (reconnectGo cfg env bs st (l₁ ++ a :: l₂)).trace =
        [a] := by
  intro l₁
  induction l₁ with
  | nil =>
    intro st h1 h2
    rw [List.nil_append,
      reconnectGo_cons_success cfg env bs a l₂ st hsucc hsleepa]
    refine ⟨rfl, ?_, ?_⟩
    · rw [sendsOf_append, sendsOf_append, sendsOf_attemptPrefix,
        sendsOf_replayEvents]
      simp [sendsOf]
    · rw [reconNotifiesOf_append, reconNotifiesOf_append,
        reconNotifiesOf_attemptPrefix, reconNotifiesOf_replayEvents]
      simp [reconNotifiesOf]
  | cons k l₁' ih =>
    intro st h1 h2
    have ih' := ih { st with ws := none }
      (fun j hj => h1 j (by simp [hj]))
      (fun j hj => h2 j (by simp [hj]))
    rw [List.cons_append,
      reconnectGo_cons_continue cfg env bs k (l₁' ++ a :: l₂) st
        (h1 k (by simp)) (h2 k (by simp))]
    refine ⟨ih'.1, ?_, ?_⟩
    · rw [sendsOf_append, sendsOf_attemptPrefix, List.nil_append, ih'.2.1]
    · rw [reconNotifiesOf_append, reconNotifiesOf_attemptPrefix,
        List.nil_append, ih'.2.2]

theorem subscribeCore_state (env : CallEnv) (bs : Builder) (m : String)
    (cb : Nat) (kw : SubInfo) (st : ClientState) (pre : List Event) :
    (subscribeCore env bs m cb kw st pre).2.1 =
      { st with callbacks := dictSet st.callbacks m cb } := by
  unfold subscribeCore
  split_ifs <;> rfl

theorem subscribeCore_fail (env : CallEnv) (bs : Builder) (m : String)
    (cb : Nat) (kw : SubInfo) (st : ClientState) (pre : List Event)
    (h : env.buildRaises = true ∨ env.sendRaises = true) :
    (subscribeCore env bs m cb kw st pre).1 = false := by
  unfold subscribeCore
  split_ifs with h1 h2 h3 <;> first | rfl | (exfalso; tauto)

theorem unsubscribeMethod_state (env : CallEnv) (bu : Builder) (m : String)
    (kw : SubInfo) (st : ClientState) :
    (unsubscribeMethod env bu m kw st).2.1 =
      { st with callbacks := dictPop st.callbacks m } := by
  unfold unsubscribeMethod
  split_ifs <;> rfl

theorem unsubscribeMethod_ret (env : CallEnv) (bu : Builder) (m : String)
    (kw : SubInfo) (st : ClientState) :
    (unsubscribeMethod env bu m kw st).1 =
      (!env.buildRaises && st.ws.isSome && !env.sendRaises) := by
  unfold unsubscribeMethod
  split_ifs with h1 h2 h3 <;> simp_all [Option.isSome_iff_ne_none]

theorem unsubscribeMethod_trace (env : CallEnv) (bu : Builder) (m : String)
    (kw : SubInfo) (st : ClientState) :
    (unsubscribeMethod env bu m kw st).2.2 =
      if !env.buildRaises && st.ws.isSome && !env.sendRaises then
        [Event.sendMsg (bu m kw)]
      else [] := by
  unfold unsubscribeMethod
  split_ifs with h1 h2 h3 <;> simp_all [Option.isSome_iff_ne_none]

end Lemmas

section Theorems

/-- C3: a reconnect invocation that finds the session's reconnecting flag
already set returns `False` at once, with the state untouched and an empty
effect trace — no socket close, no backoff sleep, no `connect()` call, no
subscription replay. At most one reconnect cycle is in progress per
session. -/
theorem reconnect_reentrancy_guard (cfg : Config) (env : ReconnectEnv)
    (bs : Builder) (st : ClientState) (h : st.isReconnecting = true) :
    reconnect cfg env bs st = ⟨ROutcome.ok false, st, []⟩ := by
  simp [reconnect, h]

/-- Witness for C3: in a session mid-reconnect with one live socket and one
registered subscription, a second reconnect invocation returns `False` with
no effects. -/
theorem reconnect_reentrancy_guard_witness :
    (⟨some 3, 4, [("subscribeNewToken", 1)],
      [("subscribeNewToken", [("callback", Field.cb 1)])], true⟩ :
        ClientState).isReconnecting = true ∧
    reconnect defaultConfig allFailEnv
        (fun m _ => Json.obj [("method", Json.str m)])
        ⟨some 3, 4, [("subscribeNewToken", 1)],
          [("subscribeNewToken", [("callback", Field.cb 1)])], true⟩ =
      ⟨ROutcome.ok false,
        ⟨some 3, 4, [("subscribeNewToken", 1)],
          [("subscribeNewToken", [("callback", Field.cb 1)])], true⟩, []⟩ :=
  ⟨rfl, reconnect_reentrancy_guard defaultConfig allFailEnv _ _ rfl⟩

/-- C10: whenever a reconnect cycle actually starts (the flag was not
already set), the `finally` clause leaves the reconnecting flag `False` on
every exit path — successful reconnection, exhaustion of all attempts, and
an exception escaping the attempt loop alike — so a completed cycle never
permanently blocks a later one. -/
theorem reconnect_resets_flag (cfg : Config) (env : ReconnectEnv)
    (bs : Builder) (st : ClientState) (h : st.isReconnecting = false) :
    (reconnect cfg env bs st).state.isReconnecting = false := by
  simp [reconnect, h]

/-- Witness for C10: the flag is cleared on all three exit paths — an
immediately successful reconnect, five failed attempts, and a sleep
interrupted by an exception at attempt 2. -/
theorem reconnect_resets_flag_witness :
    (⟨none, 0, [], [], false⟩ : ClientState).isReconnecting = false ∧
    (reconnect defaultConfig ⟨fun _ => true, fun _ => false,
        fun _ _ => false, fun _ _ => false⟩
        (fun m _ => Json.obj [("method", Json.str m)])
        ⟨none, 0, [], [], false⟩).state.isReconnecting = false ∧
    (reconnect defaultConfig allFailEnv
        (fun m _ => Json.obj [("method", Json.str m)])
        ⟨none, 0, [], [], false⟩).state.isReconnecting = false ∧
    (reconnect defaultConfig ⟨fun _ => false, fun k => k == 2,
        fun _ _ => false, fun _ _ => false⟩
        (fun m _ => Json.obj [("method", Json.str m)])
        ⟨none, 0, [], [], false⟩).state.isReconnecting = false :=
  ⟨rfl,
   reconnect_resets_flag _ _ _ _ rfl,
   reconnect_resets_flag _ _ _ _ rfl,
   reconnect_resets_flag _ _ _ _ rfl⟩

/-- C2: with the default configuration (base delay 5 s, 5 attempts) and
every handshake failing, the reconnect loop's effect trace shows attempt 1
connecting with no preceding sleep and each attempt `k > 1` sleeping
exactly `5 * 2 ^ (k - 2)` seconds immediately before its `connect()`; the
delays before attempts 1..5 are exactly 0, 5, 10, 20, 40 seconds. -/
theorem reconnect_backoff_schedule (bs : Builder) (st : ClientState)
    (hflag : st.isReconnecting = false) (hws : st.ws = none) :
    (reconnect defaultConfig allFailEnv bs st).trace =
      [Event.wsConnect,
       Event.sleep 5, Event.wsConnect,
       Event.sleep 10, Event.wsConnect,
       Event.sleep 20, Event.wsConnect,
       Event.sleep 40, Event.wsConnect] ∧
    (List.range' 1 5).map
        (fun k => if 1 < k then backoffDelay defaultConfig k else 0) =
      [0, 5, 10, 20, 40] := by
  obtain ⟨ws, nh, cbs, subs, flag⟩ := st
  simp only at hflag hws
  subst hflag hws
  exact ⟨rfl, rfl⟩

/-- Witness for C2: the backoff schedule on a fresh disconnected session. -/
theorem reconnect_backoff_schedule_witness :
    (⟨none, 0, [], [], false⟩ : ClientState).isReconnecting = false ∧
    (⟨none, 0, [], [], false⟩ : ClientState).ws = none ∧
    ((reconnect defaultConfig allFailEnv
          (fun m _ => Json.obj [("method", Json.str m)])
          ⟨none, 0, [], [], false⟩).trace =
        [Event.wsConnect,
         Event.sleep 5, Event.wsConnect,
         Event.sleep 10, Event.wsConnect,
         Event.sleep 20, Event.wsConnect,
         Event.sleep 40, Event.wsConnect] ∧
      (List.range' 1 5).map
          (fun k => if 1 < k then backoffDelay defaultConfig k else 0) =
        [0, 5, 10, 20, 40]) :=
  ⟨rfl, rfl, reconnect_backoff_schedule _ _ rfl rfl⟩

/-- C8 counterexample: `connect()` on a session that already holds a live
connection (handle 0) is not a no-op — it performs a fresh handshake
(`wsConnect` appears in the trace) and replaces the stored connection with
the newly opened socket, so the stored handle changes. -/
theorem connect_counterexample :
    (connect true ⟨some 0, 1, [], [], false⟩).2.2 = [Event.wsConnect] ∧
    (connect true ⟨some 0, 1, [], [], false⟩).2.1.ws = some 1 ∧
    (connect true ⟨some 0, 1, [], [], false⟩).2.1.ws ≠
      (⟨some 0, 1, [], [], false⟩ : ClientState).ws :=
  ⟨rfl, rfl, by decide⟩

/-- C8 amended: a call to `connect()` on a session already holding a live
connection is not an idempotent no-op — it always performs a new handshake;
on success it returns `True` and replaces the stored connection with the
fresh socket (the previous connection is not closed, so a duplicate live
socket can arise), and on failure it returns `False` leaving the old
connection in place. -/
theorem connect_always_handshakes (st : ClientState) (succeed : Bool)
    (h : Nat) (hws : st.ws = some h) :
    (connect succeed st).2.2 = [Event.wsConnect] ∧
    (connect succeed st).1 = succeed ∧
    (connect true st).2.1.ws = some st.nextHandle ∧
    (connect false st).2.1 = st := by
  cases succeed <;> simp [connect]

/-- Witness for C8 (amended): on a session holding socket 0, a successful
second `connect()` performs the handshake, returns `True` and stores the
new socket 1; a failing one returns `False` and keeps the state. -/
theorem connect_always_handshakes_witness :
    (⟨some 0, 1, [], [], false⟩ : ClientState).ws = some 0 ∧
    ((connect true ⟨some 0, 1, [], [], false⟩).2.2 = [Event.wsConnect] ∧
      (connect true ⟨some 0, 1, [], [], false⟩).1 = true ∧
      (connect true ⟨some 0, 1, [], [], false⟩).2.1.ws = some 1 ∧
      (connect false ⟨some 0, 1, [], [], false⟩).2.1 =
        ⟨some 0, 1, [], [], false⟩) :=
  ⟨rfl, connect_always_handshakes ⟨some 0, 1, [], [], false⟩ true 0 rfl⟩

/-- C4: `subscribe_method(key, callback, ...)` with no live connection and a
failing `connect()` returns `False` without registering the callback;
with a connection available (pre-existing or just established) it records
the callback in the registry before sending, and a raising build or send
step yields `False` with the callback still registered. -/
theorem subscribe_registers_before_send (env : CallEnv) (bs : Builder)
    (m : String) (cb : Nat) (kw : SubInfo) (st : ClientState) :
    (st.ws = none → env.connectSucceeds = false →
      subscribeMethod env bs m cb kw st = (false, st, [Event.wsConnect])) ∧
    (st.ws = none → env.connectSucceeds = true →
      (subscribeMethod env bs m cb kw st).2.1.callbacks =
          dictSet st.callbacks m cb ∧
        (env.buildRaises = true ∨ env.sendRaises = true →
          (subscribeMethod env bs m cb kw st).1 = false)) ∧
    (∀ h : Nat, st.ws = some h →
      (subscribeMethod env bs m cb kw st).2.1.callbacks =
          dictSet st.callbacks m cb ∧
        (env.buildRaises = true ∨ env.sendRaises = true →
          (subscribeMethod env bs m cb kw st).1 = false)) := by
  refine ⟨?_, ?_, ?_⟩
  · intro h1 h2
    simp [subscribeMethod, h1, h2, connect]
  · intro h1 h2
    constructor
    · simp only [subscribeMethod, h1, h2, connect, if_pos]
      rw [subscribeCore_state]
    · intro hraise
      simp only [subscribeMethod, h1, h2, connect, if_pos]
      rw [subscribeCore_fail]
      exact hraise
  · intro h hws
    constructor
    · simp only [subscribeMethod, hws]
      rw [subscribeCore_state]
    · intro hraise
      simp only [subscribeMethod, hws]
      rw [subscribeCore_fail]
      exact hraise

/-- Witness for C4: on a disconnected session with a failing network the
subscribe returns `False` leaving the registry empty; on a connected
session whose send raises, the subscribe returns `False` with the callback
registered. -/
theorem subscribe_registers_before_send_witness :
    ((⟨none, 0, [], [], false⟩ : ClientState).ws = none ∧
      (⟨false, false, false⟩ : CallEnv).connectSucceeds = false ∧
      subscribeMethod ⟨false, false, false⟩
          (fun mm _ => Json.obj [("method", Json.str mm)]) "subscribeNewToken"
          7 [] ⟨none, 0, [], [], false⟩ =
        (false, ⟨none, 0, [], [], false⟩, [Event.wsConnect])) ∧
    ((⟨some 0, 1, [], [], false⟩ : ClientState).ws = some 0 ∧
      (subscribeMethod ⟨true, false, true⟩
            (fun mm _ => Json.obj [("method", Json.str mm)])
            "subscribeNewToken" 7 [] ⟨some 0, 1, [], [], false⟩).2.1.callbacks =
          dictSet [] "subscribeNewToken" 7 ∧
        (subscribeMethod ⟨true, false, true⟩
            (fun mm _ => Json.obj [("method", Json.str mm)])
            "subscribeNewToken" 7 [] ⟨some 0, 1, [], [], false⟩).1 = false) :=
  ⟨⟨rfl, rfl,
    (subscribe_registers_before_send ⟨false, false, false⟩ _ _ _ _ _).1 rfl rfl⟩,
   ⟨rfl,
    ((subscribe_registers_before_send ⟨true, false, true⟩ _ _ _ _ _).2.2 0
        rfl).1,
    ((subscribe_registers_before_send ⟨true, false, true⟩ _ _ _ _ _).2.2 0
        rfl).2 (Or.inr rfl)⟩⟩

/-- C5: `unsubscribe_method(key, ...)` removes the callback from the
registry first and unconditionally (even when the subsequent build or send
raises, the removal is not rolled back); the return value is a function of
the build/send outcome and the connection only, never of the registry; and
a second consecutive call with the same key still builds and sends the
unsubscribe message, returning by send success alone. -/
theorem unsubscribe_removes_first (env : CallEnv) (bu : Builder)
    (m : String) (kw : SubInfo) (st : ClientState) :
    (unsubscribeMethod env bu m kw st).2.1.callbacks =
        dictPop st.callbacks m ∧
    (unsubscribeMethod env bu m kw st).1 =
        (!env.buildRaises && st.ws.isSome && !env.sendRaises) ∧
    (unsubscribeMethod env bu m kw
        ((unsubscribeMethod env bu m kw st).2.1)).1 =
      (unsubscribeMethod env bu m kw st).1 ∧
    ((unsubscribeMethod env bu m kw st).1 = true →
      (unsubscribeMethod env bu m kw
          ((unsubscribeMethod env bu m kw st).2.1)).2.2 =
        [Event.sendMsg (bu m kw)]) := by
  refine ⟨?_, unsubscribeMethod_ret env bu m kw st, ?_, ?_⟩
  · rw [unsubscribeMethod_state]
  · rw [unsubscribeMethod_ret, unsubscribeMethod_ret, unsubscribeMethod_state]
  · intro h
    rw [unsubscribeMethod_ret] at h
    rw [unsubscribeMethod_trace, unsubscribeMethod_state]
    simp only
    rw [if_pos h]

/-- Witness for C5: on a connected session with the callback registered and
a healthy send, both consecutive unsubscribes return `True`, the first
removes the callback, and the second still sends the unsubscribe message. -/
theorem unsubscribe_removes_first_witness :
    (unsubscribeMethod ⟨true, false, false⟩
          (fun mm _ => Json.obj [("method", Json.str mm)]) "subscribeNewToken"
          [] ⟨some 0, 1, [("subscribeNewToken", 7)], [], false⟩).2.1.callbacks =
        dictPop [("subscribeNewToken", 7)] "subscribeNewToken" ∧
    (unsubscribeMethod ⟨true, false, false⟩
          (fun mm _ => Json.obj [("method", Json.str mm)]) "subscribeNewToken"
          [] ⟨some 0, 1, [("subscribeNewToken", 7)], [], false⟩).1 = true ∧
    (unsubscribeMethod ⟨true, false, false⟩
          (fun mm _ => Json.obj [("method", Json.str mm)]) "subscribeNewToken"
          []
          ((unsubscribeMethod ⟨true, false, false⟩
              (fun mm _ => Json.obj [("method", Json.str mm)])
              "subscribeNewToken" []
              ⟨some 0, 1, [("subscribeNewToken", 7)], [], false⟩).2.1)).2.2 =
      [Event.sendMsg (Json.obj [("method", Json.str "subscribeNewToken")])] :=
  ⟨(unsubscribe_removes_first ⟨true, false, false⟩ _ _ _ _).1,
   (unsubscribe_removes_first ⟨true, false, false⟩ _ _ _ _).2.1,
   (unsubscribe_removes_first ⟨true, false, false⟩ _ _ _ _).2.2.2 rfl⟩

/-- C9: in the read loop, a malformed frame (one whose handling raises a
JSON decode error) sitting between two well-formed frames does not prevent
either well-formed frame from being dispatched; and a frame whose handling
raises any other exception (e.g. inside a user callback) is likewise logged
and swallowed, the loop continuing with the remaining frames. -/
theorem readloop_malformed_resilience (handle : String → HandleResult)
    (g₁ bad g₂ : String) (d₁ d₂ : List (String × Json))
    (h₁ : handle g₁ = HandleResult.ok d₁)
    (h₂ : handle g₂ = HandleResult.ok d₂)
    (hb : handle bad = HandleResult.parseError ∨
      handle bad = HandleResult.raised) :
    connectionHandlerLoop handle
        [Frame.text g₁, Frame.text bad, Frame.text g₂] = d₁ ++ d₂ ∧
    (∀ (f : String) (rest : List Frame), handle f = HandleResult.parseError →
      connectionHandlerLoop handle (Frame.text f :: rest) =
        connectionHandlerLoop handle rest) ∧
    (∀ (f : String) (rest : List Frame), handle f = HandleResult.raised →
      connectionHandlerLoop handle (Frame.text f :: rest) =
        connectionHandlerLoop handle rest) := by
  refine ⟨?_, ?_, ?_⟩
  · rcases hb with hb | hb <;>
      simp [connectionHandlerLoop, h₁, h₂, hb]
  · intro f rest hf
    simp [connectionHandlerLoop, hf]
  · intro f rest hf
    simp [connectionHandlerLoop, hf]

/-- Witness for C9: with a handler that fails to parse the frame `"oops"`
and dispatches every other frame to a callback keyed by the frame text,
the sequence good–malformed–good dispatches both good frames. -/
theorem readloop_malformed_resilience_witness :
    (fun s => if s = "oops" then HandleResult.parseError
      else HandleResult.ok [(s, Json.null)] : String → HandleResult) "a" =
        HandleResult.ok [("a", Json.null)] ∧
    (fun s => if s = "oops" then HandleResult.parseError
      else HandleResult.ok [(s, Json.null)] : String → HandleResult) "b" =
        HandleResult.ok [("b", Json.null)] ∧
    (fun s => if s = "oops" then HandleResult.parseError
      else HandleResult.ok [(s, Json.null)] : String → HandleResult) "oops" =
        HandleResult.parseError ∧
    connectionHandlerLoop
        (fun s => if s = "oops" then HandleResult.parseError
          else HandleResult.ok [(s, Json.null)])
        [Frame.text "a", Frame.text "oops", Frame.text "b"] =
      [("a", Json.null)] ++ [("b", Json.null)] :=
  ⟨by simp, by simp, by simp,
   (readloop_malformed_resilience _ "a" "oops" "b" _ _ (by simp) (by simp)
      (Or.inl (by simp))).1⟩

/-- C6: the JSON-RPC dispatcher classifies each inbound message: one with
both `result` and `id` is an acknowledgement — logged, no callback invoked;
one with `method` and `params` (and not classified as an ack) is a
notification — the topic is the method name with its `Notification` suffix
replaced by `Subscribe` (for a method of the form `p ++ "Notification"`
with no earlier occurrence of `Notification`, the topic is
`p ++ "Subscribe"`), and the callback registered under that topic receives
exactly the `params` payload; one with `error` (and neither of the above
shapes) is logged as a protocol-level error, a returned log result rather
than an exception, so the session survives. -/
theorem rpc_dispatch_classification (subs : List (String × SubInfo))
    (fields : List (String × Json)) :
    (dictHas fields "result" = true → dictHas fields "id" = true →
      messageHandler subs fields =
        DispatchResult.ackLogged ((dictGet fields "result").getD Json.null)
          ((dictGet fields "id").getD Json.null)) ∧
    (∀ (m : String) (pv : Json) (info : SubInfo) (c : Nat),
      (dictHas fields "result" && dictHas fields "id") = false →
      dictGet fields "method" = some (Json.str m) →
      dictGet fields "params" = some pv →
      dictGet subs (rpcTopicOf m) = some info →
      callbackOf info = some c →
      messageHandler subs fields = DispatchResult.callbackInvoked c pv) ∧
    (∀ p : String,
      (∀ i, i < p.data.length →
        ¬ ("Notification" : String).data.isPrefixOf
            ((p.data ++ ("Notification" : String).data).drop i)) →
      rpcTopicOf (p ++ "Notification") = p ++ "Subscribe") ∧
    ((dictHas fields "result" && dictHas fields "id") = false →
      (dictHas fields "method" && dictHas fields "params") = false →
      dictHas fields "error" = true →
      messageHandler subs fields =
        DispatchResult.errorLogged ((dictGet fields "error").getD Json.null)) := by
  refine ⟨?_, ?_, fun p h => rpcTopicOf_strip_suffix p h, ?_⟩
  · intro h1 h2
    simp [messageHandler, h1, h2]
  · intro m pv info c hr hm hp hs hc
    have hm' : dictHas fields "method" = true := by simp [dictHas, hm]
    have hp' : dictHas fields "params" = true := by simp [dictHas, hp]
    simp [messageHandler, hr, hm, hp, hs, hc, hm', hp']
  · intro h1 h2 h3
    simp [messageHandler, h1, h2, h3]

/-- Witness for C6, following Scenario B: the ack `{"result":42,"id":1}` is
logged without invoking a callback; the notification under method
`accountNotification` reaches callback 5 registered under
`accountSubscribe` with exactly the params payload; the topic derivation
strips the suffix; and a pure error message is logged as an RPC error. -/
theorem rpc_dispatch_classification_witness :
    (dictHas scenarioBAck "result" = true ∧
      dictHas scenarioBAck "id" = true ∧
      messageHandler scenarioBRegistry scenarioBAck =
        DispatchResult.ackLogged (Json.num 42) (Json.num 1)) ∧
    ((dictHas scenarioBNotif "result" && dictHas scenarioBNotif "id") = false ∧
      dictGet scenarioBNotif "method" = some (Json.str "accountNotification") ∧
      dictGet scenarioBNotif "params" = some scenarioBPayload ∧
      dictGet scenarioBRegistry (rpcTopicOf "accountNotification") =
        some [("callback", Field.cb 5),
              ("params", Field.val (Json.arr
                [Json.str "Addr1",
                 Json.obj [("commitment", Json.str "confirmed")]]))] ∧
      messageHandler scenarioBRegistry scenarioBNotif =
        DispatchResult.callbackInvoked 5 scenarioBPayload) ∧
    rpcTopicOf ("account" ++ "Notification") = "account" ++ "Subscribe" ∧
    ((dictHas [("error", Json.obj [("code", Json.num (-32602))])] "result" &&
        dictHas [("error", Json.obj [("code", Json.num (-32602))])] "id") =
          false ∧
      messageHandler scenarioBRegistry
          [("error", Json.obj [("code", Json.num (-32602))])] =
        DispatchResult.errorLogged (Json.obj [("code", Json.num (-32602))])) := by
  refine ⟨⟨rfl, rfl, ?_⟩, ⟨rfl, rfl, rfl, rfl, ?_⟩, ?_, rfl, ?_⟩
  · exact (rpc_dispatch_classification scenarioBRegistry scenarioBAck).1 rfl rfl
  · exact (rpc_dispatch_classification scenarioBRegistry scenarioBNotif).2.1
      "accountNotification" scenarioBPayload _ 5 rfl rfl rfl rfl rfl
  · exact (rpc_dispatch_classification scenarioBRegistry scenarioBNotif).2.2.1
      "account" (by decide)
  · exact (rpc_dispatch_classification scenarioBRegistry _).2.2.2 rfl rfl rfl

/-- C1: when a reconnect cycle starts with the reconnecting flag clear and
the handshake first succeeds at attempt `a` of the schedule (failing on
every earlier attempt, with no interrupted sleeps), the call returns
`True`; the outbound subscribe messages of the cycle are exactly one per
registry entry whose restore does not raise, in the registry's insertion
order, each built by the adapter from the entry's stored parameters with
the callback stripped — an entry whose build or send raises is skipped
without aborting the remaining entries; and the Notifier receives exactly
one reconnection-success message, citing attempt `a`. -/
theorem reconnect_replays_registry (cfg : Config) (env : ReconnectEnv)
    (bs : Builder) (st : ClientState) (l₁ : List Nat) (a : Nat)
    (l₂ : List Nat)
    (hflag : st.isReconnecting = false)
    (hsplit : List.range' 1 cfg.maxReconnectAttempts = l₁ ++ a :: l₂)
    (hfail : ∀ k ∈ l₁, env.connectResult k = false)
    (hsleep : ∀ k ∈ l₁, env.sleepRaises k = false)
    (hsucc : env.connectResult a = true)
    (hsleepa : env.sleepRaises a = false) :
    (reconnect cfg env bs st).outcome = ROutcome.ok true ∧
    sendsOf (reconnect cfg env bs st).trace =
      st.activeSubscriptions.filterMap (fun p =>
        if env.buildRaises a p.1 || env.sendRaises a p.1 then none
        else some (bs p.1 (kwargsOf p.2))) ∧
    reconNotifiesOf (reconnect cfg env bs st).trace = [a] := by
  have key := reconnectGo_first_success cfg env bs a l₂ hsucc hsleepa l₁
    { st with isReconnecting := true } hfail hsleep
  unfold reconnect
  rw [hflag]
  simp only [Bool.false_eq_true, if_false, hsplit]
  exact ⟨key.1, key.2.1, key.2.2⟩

/-- Witness for C1, following Scenario C: two active subscriptions, three
failed handshakes, success on attempt 4 — the call returns `True`, exactly
the two subscribe messages are re-sent in original subscribe order (built
from the stored parameters without the callback), and the Notifier receives
exactly one success message citing attempt 4. -/
theorem reconnect_replays_registry_witness :
    scenarioCState.isReconnecting = false ∧
    List.range' 1 defaultConfig.maxReconnectAttempts = [1, 2, 3] ++ 4 :: [5] ∧
    (∀ k ∈ [1, 2, 3], scenarioCEnv.connectResult k = false) ∧
    scenarioCEnv.connectResult 4 = true ∧
    ((reconnect defaultConfig scenarioCEnv pumpportalBuildSubscribeMessage
        scenarioCState).outcome = ROutcome.ok true ∧
      sendsOf (reconnect defaultConfig scenarioCEnv
          pumpportalBuildSubscribeMessage scenarioCState).trace =
        scenarioCState.activeSubscriptions.filterMap (fun p =>
          if scenarioCEnv.buildRaises 4 p.1 || scenarioCEnv.sendRaises 4 p.1
          then none
          else some (pumpportalBuildSubscribeMessage p.1 (kwargsOf p.2))) ∧
      reconNotifiesOf (reconnect defaultConfig scenarioCEnv
          pumpportalBuildSubscribeMessage scenarioCState).trace = [4]) ∧
    sendsOf (reconnect defaultConfig scenarioCEnv
        pumpportalBuildSubscribeMessage scenarioCState).trace =
      [Json.obj [("method", Json.str "subscribeNewToken"),
                 ("keys", Json.arr [])],
       Json.obj [("method", Json.str "subscribeTokenTrade"),
                 ("keys", Json.arr [Json.str "mintA"])]] :=
  ⟨rfl, rfl, by decide, rfl,
   reconnect_replays_registry defaultConfig scenarioCEnv
     pumpportalBuildSubscribeMessage scenarioCState [1, 2, 3] 4 [5]
     rfl rfl (by decide) (by decide) rfl rfl,
   rfl⟩

/-- C7: the topic/room-style build-subscribe extension point, applied to a
subscription key and a `keys` list parameter, produces the wire message
`{"method": key, "keys": [...]}`; build-unsubscribe produces the same
shape under the `un`-prefixed method name. -/
theorem pumpportal_build_message_shape (key : String) (keys : List Json) :
    pumpportalBuildSubscribeMessage key
        [("keys", Field.val (Json.arr keys))] =
      Json.obj [("method", Json.str key), ("keys", Json.arr keys)] ∧
    pumpportalBuildUnsubscribeMessage ("un" ++ key)
        [("keys", Field.val (Json.arr keys))] =
      Json.obj [("method", Json.str ("un" ++ key)),
                ("keys", Json.arr keys)] :=
  ⟨rfl, rfl⟩

end Theorems

end WsClient
